import Mathlib

/-!
Shallow embedding of the NVK queue submission engine
(src/nouveau/vulkan/nvk_queue.c): queue state synchronization
(`nvk_queue_state_update`), push-buffer re-encoding, and the submit /
submit-simple paths with the lost-queue latch.

Buffer objects are modelled by value; value equality of the `Option BO`
stands for the pointer identity the C code compares.  Side effects that the
claims are about (reference destruction, allocation attempts, whether the
transport and the diagnostic dump ran) are made explicit in the result
records.
-/

namespace Nvk

/-- The result codes that appear in nvk_queue.c. -/
inductive VkResult where
  | VK_SUCCESS
  | VK_ERROR_DEVICE_LOST
  | VK_ERROR_OUT_OF_DEVICE_MEMORY
deriving DecidableEq, Repr

/-- A buffer object reference: identity handle, byte size and GPU
virtual address (`offset`), as used by nvk_queue.c. -/
structure BO where
  handle : Nat
  size : Nat
  offset : Nat
deriving DecidableEq, Repr

/-- One descriptor-table slot of `struct nvk_queue_state`
(images or samplers): cached BO reference plus `alloc_count`. -/
structure ImageSlot where
  bo : Option BO
  alloc_count : Nat
deriving DecidableEq, Repr

/-- The scratch (shader-local-memory) slot of `struct nvk_queue_state`. -/
structure SlmSlot where
  bo : Option BO
  bytes_per_warp : Nat
  bytes_per_tpc : Nat
deriving DecidableEq, Repr

/-- The push-buffer slot of `struct nvk_queue_state`: BO, the mapping
(modelled as an abstract token) and the encoded dword count. -/
structure PushSlot where
  bo : Option BO
  bo_map : Nat
  dw_count : Nat
deriving DecidableEq, Repr

/-- Modelled after `struct nvk_queue_state` in nvk_queue.h/nvk_queue.c. -/
structure nvk_queue_state where
  images : ImageSlot
  samplers : ImageSlot
  slm : SlmSlot
  push : PushSlot
deriving DecidableEq, Repr

/-- Modelled from the spec: the descriptor-table Resource Provider
(`nvk_descriptor_table`, not under src/) as seen through
`nvk_descriptor_table_get_bo_ref`: it hands back its current BO reference
and element count on each query. -/
structure nvk_descriptor_table where
  bo : Option BO
  alloc_count : Nat
deriving DecidableEq, Repr

/-- Modelled from the spec: the scratch-memory Resource Provider
(`nvk_slm_area`, not under src/) as seen through
`nvk_slm_area_get_bo_ref`: current BO reference plus per-warp and
per-TPC sizing. -/
structure nvk_slm_area where
  bo : Option BO
  bytes_per_warp : Nat
  bytes_per_tpc : Nat
deriving DecidableEq, Repr

/-- Modelled from the spec: `nvk_descriptor_table_get_bo_ref` returns the
provider's current BO reference (a fresh duplicate reference the caller
must release if unused) together with the allocation count. -/
def nvk_descriptor_table_get_bo_ref (t : nvk_descriptor_table) :
    Option BO × Nat :=
  (t.bo, t.alloc_count)

/-- Modelled from the spec: `nvk_slm_area_get_bo_ref` returns the scratch
provider's current BO reference and its sizing metadata. -/
def nvk_slm_area_get_bo_ref (a : nvk_slm_area) :
    Option BO × Nat × Nat :=
  (a.bo, a.bytes_per_warp, a.bytes_per_tpc)

/-- The inputs of one call into nvk_queue.c that are owned by the device:
the three providers' current answers, the physical-device compute class,
the debug flags, and the outcome of the next
`nouveau_ws_bo_new_mapped` call (`none` models allocation failure,
`some (bo, map)` a fresh mapped buffer). -/
structure nvk_device where
  images : nvk_descriptor_table
  samplers : nvk_descriptor_table
  slm : nvk_slm_area
  cls_compute : Nat
  debug_push_sync : Bool
  debug_push_dump : Bool
  push_alloc : Option (BO × Nat)
deriving DecidableEq, Repr

/-- Hardware class number of VOLTA_COMPUTE_A, compared against
`pdev->info.cls_compute` in nvk_queue.c. -/
def VOLTA_COMPUTE_A : Nat := 0xc3c0

/-- The `nouveau_ws_bo_destroy` call sites in `nvk_queue_state_update`
and `nvk_queue_submit_simple`, used to tag which reference a destroy
event released. -/
inductive DestroySite where
  | imagesOld
  | imagesDup
  | samplersOld
  | samplersDup
  | slmOld
  | slmDup
  | pushOld
  | pushTmp
deriving DecidableEq, Repr

/-- Destroying an optional BO reference: the C pattern
`if (bo) nouveau_ws_bo_destroy(bo)`. -/
def destroyOpt (s : DestroySite) (b : Option BO) : List (DestroySite × BO) :=
  match b with
  | none => []
  | some x => [(s, x)]

/-- One descriptor slot step of `nvk_queue_state_update`: compare the
provider's answer against the cached slot by BO identity and
`alloc_count`; on any difference release the old cached reference and
store the new one (dirty), otherwise release the fresh duplicate. -/
def updateDescriptorSlot (oldS dupS : DestroySite) (cached : ImageSlot)
    (bo : Option BO) (alloc_count : Nat) :
    ImageSlot × List (DestroySite × BO) × Bool :=
  if cached.bo ≠ bo ∨ cached.alloc_count ≠ alloc_count then
    (⟨bo, alloc_count⟩, destroyOpt oldS cached.bo, true)
  else
    (cached, destroyOpt dupS bo, false)

/-- The scratch slot step of `nvk_queue_state_update`: as
`updateDescriptorSlot` but comparing `bytes_per_warp` and
`bytes_per_tpc` as the sizing metadata. -/
def updateSlmSlot (cached : SlmSlot) (bo : Option BO)
    (bytes_per_warp bytes_per_tpc : Nat) :
    SlmSlot × List (DestroySite × BO) × Bool :=
  if cached.bo ≠ bo ∨ cached.bytes_per_warp ≠ bytes_per_warp ∨
      cached.bytes_per_tpc ≠ bytes_per_tpc then
    (⟨bo, bytes_per_warp, bytes_per_tpc⟩, destroyOpt .slmOld cached.bo, true)
  else
    (cached, destroyOpt .slmDup bo, false)

/-- Low 32 bits, as a hardware command data field receives them. -/
def lo32 (x : Nat) : Nat := x % 2 ^ 32

/-- High 32 bits of a 64-bit value (the C `x >> 32`). -/
def hi32 (x : Nat) : Nat := x / 2 ^ 32

/-- The C `alloc_count - 1` on a uint32_t, with wrap-around at zero. -/
def u32_sub_one (n : Nat) : Nat := (n % 2 ^ 32 + (2 ^ 32 - 1)) % 2 ^ 32

/-- Value of the LINES_ALL enum used by the cache-invalidate methods; the
concrete number comes from a generated class header not in the sources
and no claim depends on it. -/
def LINES_ALL : Nat := 0

/-- The hardware methods emitted by `nvk_queue_state_update`, tagged by
execution context (`cp` = compute class, `3d` = 3D class, `volta` =
Volta-and-later compute class NVC3C0). -/
inductive Mthd where
  | SET_TEX_HEADER_POOL_A_cp
  | INVALIDATE_TEXTURE_HEADER_CACHE_NO_WFI_cp
  | SET_TEX_HEADER_POOL_A_3d
  | INVALIDATE_TEXTURE_HEADER_CACHE_NO_WFI_3d
  | SET_TEX_SAMPLER_POOL_A_cp
  | INVALIDATE_SAMPLER_CACHE_NO_WFI_cp
  | SET_TEX_SAMPLER_POOL_A_3d
  | INVALIDATE_SAMPLER_CACHE_NO_WFI_3d
  | SET_SHADER_LOCAL_MEMORY_A_cp
  | SET_SHADER_LOCAL_MEMORY_NON_THROTTLED_A_cp
  | SET_SHADER_LOCAL_MEMORY_THROTTLED_A_cp
  | SET_SHADER_LOCAL_MEMORY_A_3d
  | SET_SHADER_SHARED_MEMORY_WINDOW_A_volta
  | SET_SHADER_LOCAL_MEMORY_WINDOW_A_volta
  | SET_SHADER_LOCAL_MEMORY_WINDOW_cp
  | SET_SHADER_SHARED_MEMORY_WINDOW_cp
  | SET_SHADER_LOCAL_MEMORY_WINDOW_3d
deriving DecidableEq, Repr

/-- One 32-bit push-buffer word: a P_MTHD header, a data word, or a
P_IMMD immediate-method word. -/
inductive Word where
  | hdr (m : Mthd)
  | dat (v : Nat)
  | immd (m : Mthd) (v : Nat)
deriving DecidableEq, Repr

/-- The image binding-table commands of the rebuild: texture-header-pool
base/bound plus cache invalidate, once for the compute context and once
for the 3D context; nothing when no images BO is bound. -/
def nvk_queue_encode_images (s : ImageSlot) : List Word :=
  match s.bo with
  | none => []
  | some b =>
    [Word.hdr .SET_TEX_HEADER_POOL_A_cp,
     Word.dat (hi32 b.offset),
     Word.dat (lo32 b.offset),
     Word.dat (u32_sub_one s.alloc_count),
     Word.immd .INVALIDATE_TEXTURE_HEADER_CACHE_NO_WFI_cp LINES_ALL,
     Word.hdr .SET_TEX_HEADER_POOL_A_3d,
     Word.dat (hi32 b.offset),
     Word.dat (lo32 b.offset),
     Word.dat (u32_sub_one s.alloc_count),
     Word.immd .INVALIDATE_TEXTURE_HEADER_CACHE_NO_WFI_3d LINES_ALL]

/-- The sampler binding-table commands of the rebuild, mirroring the
images block. -/
def nvk_queue_encode_samplers (s : ImageSlot) : List Word :=
  match s.bo with
  | none => []
  | some b =>
    [Word.hdr .SET_TEX_SAMPLER_POOL_A_cp,
     Word.dat (hi32 b.offset),
     Word.dat (lo32 b.offset),
     Word.dat (u32_sub_one s.alloc_count),
     Word.immd .INVALIDATE_SAMPLER_CACHE_NO_WFI_cp LINES_ALL,
     Word.hdr .SET_TEX_SAMPLER_POOL_A_3d,
     Word.dat (hi32 b.offset),
     Word.dat (lo32 b.offset),
     Word.dat (u32_sub_one s.alloc_count),
     Word.immd .INVALIDATE_SAMPLER_CACHE_NO_WFI_3d LINES_ALL]

/-- The scratch-memory allocation commands of the rebuild: compute-class
local-memory base and non-throttled size (plus the throttled variant
before Volta), then the 3D-class local-memory block. -/
def nvk_queue_encode_slm (s : SlmSlot) (cls_compute : Nat) : List Word :=
  match s.bo with
  | none => []
  | some b =>
    [Word.hdr .SET_SHADER_LOCAL_MEMORY_A_cp,
     Word.dat (hi32 b.offset),
     Word.dat (lo32 b.offset),
     Word.hdr .SET_SHADER_LOCAL_MEMORY_NON_THROTTLED_A_cp,
     Word.dat (hi32 s.bytes_per_tpc),
     Word.dat (lo32 s.bytes_per_tpc),
     Word.dat 0xff] ++
    (if cls_compute < VOLTA_COMPUTE_A then
      [Word.hdr .SET_SHADER_LOCAL_MEMORY_THROTTLED_A_cp,
       Word.dat (hi32 s.bytes_per_tpc),
       Word.dat (lo32 s.bytes_per_tpc),
       Word.dat 0xff]
     else []) ++
    [Word.hdr .SET_SHADER_LOCAL_MEMORY_A_3d,
     Word.dat (hi32 b.offset),
     Word.dat (lo32 b.offset),
     Word.dat (hi32 b.size),
     Word.dat (lo32 b.size),
     Word.dat (lo32 s.bytes_per_warp)]

/-- The memory-window base-address commands, emitted unconditionally on
every rebuild: on Volta-and-later the NVC3C0 shared- and local-memory
window pairs, otherwise the NVA0C0 single-word window methods. -/
def nvk_queue_encode_windows (cls_compute : Nat) : List Word :=
  if VOLTA_COMPUTE_A ≤ cls_compute then
    [Word.hdr .SET_SHADER_SHARED_MEMORY_WINDOW_A_volta,
     Word.dat (hi32 0xfe000000),
     Word.dat (lo32 0xfe000000),
     Word.hdr .SET_SHADER_LOCAL_MEMORY_WINDOW_A_volta,
     Word.dat (hi32 0xff000000),
     Word.dat (lo32 0xff000000)]
  else
    [Word.hdr .SET_SHADER_LOCAL_MEMORY_WINDOW_cp,
     Word.dat 0xff000000,
     Word.hdr .SET_SHADER_SHARED_MEMORY_WINDOW_cp,
     Word.dat 0xfe000000]

/-- The complete stream encoded by a rebuild in `nvk_queue_state_update`,
in the C source's emission order: images, samplers, scratch memory,
memory windows, and the final 3D local-memory-window immediate. -/
def nvk_queue_encode (qs : nvk_queue_state) (cls_compute : Nat) : List Word :=
  nvk_queue_encode_images qs.images ++
  nvk_queue_encode_samplers qs.samplers ++
  nvk_queue_encode_slm qs.slm cls_compute ++
  nvk_queue_encode_windows cls_compute ++
  [Word.immd .SET_SHADER_LOCAL_MEMORY_WINDOW_3d 0xff000000]

/-- The condition of the `assert(!(slm_per_tpc & 0x7fff))` in the rebuild
path, evaluated on the post-update state when the scratch BO is bound. -/
def rebuildAssertFired (qs : nvk_queue_state) : Bool :=
  match qs.slm.bo with
  | none => false
  | some _ => qs.slm.bytes_per_tpc &&& 0x7fff != 0

/-- The dword capacity of the push buffer allocated by the rebuild
(`nouveau_ws_bo_new_mapped(dev->ws_dev, 256 * 4, ...)` and
`nv_push_init(&push, push_map, 256)`). -/
def PUSH_CAPACITY : Nat := 256

/-- Result of `nvk_queue_state_update`: the VkResult, the new state, the
dirty verdict, how many buffer allocations were attempted, the destroy
events issued (in order), and whether the scratch-alignment assertion
fired during encoding. -/
structure UpdateResult where
  res : VkResult
  qs : nvk_queue_state
  dirty : Bool
  allocs : Nat
  destroyed : List (DestroySite × BO)
  assertFired : Bool
deriving DecidableEq, Repr

/-- Embedding of `nvk_queue_state_update` (nvk_queue.c:59-249): query the
three providers, diff each slot against the cache (releasing duplicate or
superseded references), return success immediately when clean; otherwise
allocate a fresh 256-dword push buffer (OUT_OF_DEVICE_MEMORY on failure,
with the slots already updated), encode the stream, destroy the old push
buffer and install the new one. -/
def nvk_queue_state_update (dev : nvk_device) (qs : nvk_queue_state) :
    UpdateResult :=
  let qi := nvk_descriptor_table_get_bo_ref dev.images
  let ri := updateDescriptorSlot .imagesOld .imagesDup qs.images qi.1 qi.2
  let qsm := nvk_descriptor_table_get_bo_ref dev.samplers
  let rs := updateDescriptorSlot .samplersOld .samplersDup qs.samplers qsm.1 qsm.2
  let ql := nvk_slm_area_get_bo_ref dev.slm
  let rl := updateSlmSlot qs.slm ql.1 ql.2.1 ql.2.2
  let qs1 : nvk_queue_state :=
    { images := ri.1, samplers := rs.1, slm := rl.1, push := qs.push }
  let destroyed0 := ri.2.1 ++ rs.2.1 ++ rl.2.1
  let dirty := ri.2.2 || rs.2.2 || rl.2.2
  if dirty = false then
    { res := .VK_SUCCESS, qs := qs1, dirty := false, allocs := 0,
      destroyed := destroyed0, assertFired := false }
  else
    match dev.push_alloc with
    | none =>
      { res := .VK_ERROR_OUT_OF_DEVICE_MEMORY, qs := qs1, dirty := true,
        allocs := 1, destroyed := destroyed0, assertFired := false }
    | some pa =>
      let words := nvk_queue_encode qs1 dev.cls_compute
      { res := .VK_SUCCESS,
        qs := { qs1 with push := ⟨some pa.1, pa.2, words.length⟩ },
        dirty := true, allocs := 1,
        destroyed := destroyed0 ++ destroyOpt .pushOld qs.push.bo,
        assertFired := rebuildAssertFired qs1 }

/-- A queue: the monotone lost flag (`vk_queue_is_lost`) and its state. -/
structure nvk_queue where
  lost : Bool
  state : nvk_queue_state
deriving DecidableEq, Repr

/-- The `vk_queue_is_lost` check from the common Vulkan runtime. -/
def vk_queue_is_lost (q : nvk_queue) : Bool := q.lost

/-- Modelled from the spec: `vk_queue_set_lost` (common Vulkan runtime,
not under src/) latches the queue's lost flag; the lost state is terminal
and reported with the standard device-lost error.  The call sites in
nvk_queue.c pass only a message, never the triggering error code, so the
returned result cannot depend on it. -/
def vk_queue_set_lost (q : nvk_queue) : nvk_queue × VkResult :=
  ({ q with lost := true }, .VK_ERROR_DEVICE_LOST)

/-- Observable outcome of one submit or submit-simple call: the result
code, the queue afterwards, whether `nvk_queue_state_update` ran, whether
the transport was invoked, whether the diagnostic dump was emitted, the
number of buffer allocations attempted, and the destroy events issued. -/
structure SubmitResult where
  res : VkResult
  queue : nvk_queue
  update_ran : Bool
  transport_ran : Bool
  dumped : Bool
  allocs : Nat
  destroyed : List (DestroySite × BO)
deriving DecidableEq, Repr

/-- Embedding of `nvk_queue_submit` (nvk_queue.c:251-288): fail fast when
lost; run the state update, latching lost on its failure; invoke the
transport (outcome `transport_ok`); dump when (sync flag and failure) or
the dump flag; latch lost on transport failure. -/
def nvk_queue_submit (dev : nvk_device) (transport_ok : Bool)
    (q : nvk_queue) : SubmitResult :=
  if vk_queue_is_lost q then
    { res := .VK_ERROR_DEVICE_LOST, queue := q, update_ran := false,
      transport_ran := false, dumped := false, allocs := 0, destroyed := [] }
  else
    let u := nvk_queue_state_update dev q.state
    if u.res ≠ .VK_SUCCESS then
      let lr := vk_queue_set_lost { q with state := u.qs }
      { res := lr.2, queue := lr.1, update_ran := true,
        transport_ran := false, dumped := false, allocs := u.allocs,
        destroyed := u.destroyed }
    else
      let sync := dev.debug_push_sync
      let dumped := (sync && !transport_ok) || dev.debug_push_dump
      if transport_ok = false then
        let lr := vk_queue_set_lost { q with state := u.qs }
        { res := lr.2, queue := lr.1, update_ran := true,
          transport_ran := true, dumped := dumped, allocs := u.allocs,
          destroyed := u.destroyed }
      else
        { res := .VK_SUCCESS, queue := { q with state := u.qs },
          update_ran := true, transport_ran := true, dumped := dumped,
          allocs := u.allocs, destroyed := u.destroyed }

/-- Embedding of `nvk_queue_submit_simple` (nvk_queue.c:411-456): fail
fast when lost; allocate a one-off mapped buffer (OUT_OF_DEVICE_MEMORY on
failure, queue not lost); copy the caller's words and invoke the
transport; dump under the same (sync and failure)-or-dump-flag condition;
always destroy the temporary buffer; latch lost on transport failure. -/
def nvk_queue_submit_simple (dev : nvk_device) (transport_ok : Bool)
    (dw : List Nat) (q : nvk_queue) : SubmitResult :=
  if vk_queue_is_lost q then
    { res := .VK_ERROR_DEVICE_LOST, queue := q, update_ran := false,
      transport_ran := false, dumped := false, allocs := 0, destroyed := [] }
  else
    match dev.push_alloc with
    | none =>
      { res := .VK_ERROR_OUT_OF_DEVICE_MEMORY, queue := q,
        update_ran := false, transport_ran := false, dumped := false,
        allocs := 1, destroyed := [] }
    | some pa =>
      let dumped := (dev.debug_push_sync && !transport_ok) ||
        dev.debug_push_dump
      if transport_ok = false then
        let lr := vk_queue_set_lost q
        { res := lr.2, queue := lr.1, update_ran := false,
          transport_ran := true, dumped := dumped, allocs := 1,
          destroyed := [(.pushTmp, pa.1)] }
      else
        { res := .VK_SUCCESS, queue := q, update_ran := false,
          transport_ran := true, dumped := dumped, allocs := 1,
          destroyed := [(.pushTmp, pa.1)] }

/-! Concrete sample inputs used by witnesses and counterexamples. -/

/-- Sample images BO. -/
def bo1 : BO := ⟨1, 4096, 65536⟩

/-- Sample samplers BO. -/
def bo2 : BO := ⟨2, 8192, 131072⟩

/-- Sample scratch BO with an aligned per-TPC size in the sample states. -/
def boSlm : BO := ⟨3, 0x20000, 262144⟩

/-- Sample push-buffer BO handed out by the allocation oracle. -/
def boPush : BO := ⟨9, 1024, 524288⟩

/-- The empty queue state right after `nvk_queue_state_init`. -/
def qs0 : nvk_queue_state :=
  ⟨⟨none, 0⟩, ⟨none, 0⟩, ⟨none, 0, 0⟩, ⟨none, 0, 0⟩⟩

/-- A populated queue state: images bound, samplers empty, scratch bound
with an aligned per-TPC size, and an active push buffer. -/
def qsA : nvk_queue_state :=
  ⟨⟨some bo1, 10⟩, ⟨none, 0⟩, ⟨some boSlm, 256, 0x8000⟩, ⟨some boPush, 7, 42⟩⟩

/-- A fresh, non-lost queue with empty state. -/
def q0 : nvk_queue := ⟨false, qs0⟩

/-- A non-lost queue carrying the populated state `qsA`. -/
def qA : nvk_queue := ⟨false, qsA⟩

/-- A queue whose lost flag is latched. -/
def qLost : nvk_queue := ⟨true, qsA⟩

/-- Device whose providers agree with the empty state `qs0`; both debug
flags clear; allocation would succeed. -/
def devClean : nvk_device :=
  ⟨⟨none, 0⟩, ⟨none, 0⟩, ⟨none, 0, 0⟩, 0xa0c0, false, false,
   some (boPush, 7)⟩

/-- Device whose providers agree with the populated state `qsA`. -/
def devSame : nvk_device :=
  ⟨⟨some bo1, 10⟩, ⟨none, 0⟩, ⟨some boSlm, 256, 0x8000⟩, 0xa0c0,
   false, false, some (boPush, 7)⟩

/-- Device reporting grown providers relative to `qs0`/`qsA`
(images count grew to 20); allocation would succeed. -/
def devGrow : nvk_device :=
  ⟨⟨some bo1, 20⟩, ⟨none, 0⟩, ⟨some boSlm, 256, 0x8000⟩, 0xa0c0,
   false, false, some (boPush, 7)⟩

/-- Like `devGrow` but the push-buffer allocation fails. -/
def devOOM : nvk_device :=
  ⟨⟨some bo1, 20⟩, ⟨none, 0⟩, ⟨some boSlm, 256, 0x8000⟩, 0xa0c0,
   false, false, none⟩

/-- Like `devSame` but with the dump debug flag set. -/
def devDump : nvk_device :=
  ⟨⟨some bo1, 10⟩, ⟨none, 0⟩, ⟨some boSlm, 256, 0x8000⟩, 0xa0c0,
   false, true, some (boPush, 7)⟩

/-- Like `devSame` but with the sync debug flag set. -/
def devSync : nvk_device :=
  ⟨⟨some bo1, 10⟩, ⟨none, 0⟩, ⟨some boSlm, 256, 0x8000⟩, 0xa0c0,
   true, false, some (boPush, 7)⟩

/-- Grown providers whose per-TPC scratch size violates the 0x8000
alignment granularity. -/
def devBadAlign : nvk_device :=
  ⟨⟨some bo1, 20⟩, ⟨none, 0⟩, ⟨some boSlm, 256, 0x8001⟩, 0xa0c0,
   false, false, some (boPush, 7)⟩

/-! Helper lemmas about the slot steps and `nvk_queue_state_update`. -/

theorem updateDescriptorSlot_fst (oldS dupS : DestroySite) (c : ImageSlot)
    (bo : Option BO) (n : Nat) :
    (updateDescriptorSlot oldS dupS c bo n).1 = ⟨bo, n⟩ := by
  unfold updateDescriptorSlot
  split
  · rfl
  · next h =>
    push_neg at h
    cases c
    simp_all

theorem updateSlmSlot_fst (c : SlmSlot) (bo : Option BO) (w t : Nat) :
    (updateSlmSlot c bo w t).1 = ⟨bo, w, t⟩ := by
  unfold updateSlmSlot
  split
  · rfl
  · next h =>
    push_neg at h
    cases c
    simp_all

theorem updateDescriptorSlot_dirty (oldS dupS : DestroySite) (c : ImageSlot)
    (bo : Option BO) (n : Nat) :
    (updateDescriptorSlot oldS dupS c bo n).2.2 = true ↔
      (c.bo ≠ bo ∨ c.alloc_count ≠ n) := by
  unfold updateDescriptorSlot
  split <;> simp_all

theorem updateSlmSlot_dirty (c : SlmSlot) (bo : Option BO) (w t : Nat) :
    (updateSlmSlot c bo w t).2.2 = true ↔
      (c.bo ≠ bo ∨ c.bytes_per_warp ≠ w ∨ c.bytes_per_tpc ≠ t) := by
  unfold updateSlmSlot
  split <;> simp_all

theorem updateDescriptorSlot_destroyed (oldS dupS : DestroySite)
    (c : ImageSlot) (bo : Option BO) (n : Nat) :
    (updateDescriptorSlot oldS dupS c bo n).2.1 =
      if c.bo ≠ bo ∨ c.alloc_count ≠ n then destroyOpt oldS c.bo
      else destroyOpt dupS bo := by
  unfold updateDescriptorSlot
  split <;> simp_all

theorem updateSlmSlot_destroyed (c : SlmSlot) (bo : Option BO) (w t : Nat) :
    (updateSlmSlot c bo w t).2.1 =
      if c.bo ≠ bo ∨ c.bytes_per_warp ≠ w ∨ c.bytes_per_tpc ≠ t then
        destroyOpt .slmOld c.bo
      else destroyOpt .slmDup bo := by
  unfold updateSlmSlot
  split <;> simp_all

theorem nvk_queue_state_update_slots (dev : nvk_device)
    (qs : nvk_queue_state) :
    (nvk_queue_state_update dev qs).qs.images =
      ⟨dev.images.bo, dev.images.alloc_count⟩ ∧
    (nvk_queue_state_update dev qs).qs.samplers =
      ⟨dev.samplers.bo, dev.samplers.alloc_count⟩ ∧
    (nvk_queue_state_update dev qs).qs.slm =
      ⟨dev.slm.bo, dev.slm.bytes_per_warp, dev.slm.bytes_per_tpc⟩ := by
  unfold nvk_queue_state_update nvk_descriptor_table_get_bo_ref
    nvk_slm_area_get_bo_ref
  simp only []
  split
  · simp [updateDescriptorSlot_fst, updateSlmSlot_fst]
  · split <;> simp [updateDescriptorSlot_fst, updateSlmSlot_fst]

theorem nvk_queue_state_update_dirty_eq (dev : nvk_device)
    (qs : nvk_queue_state) :
    (nvk_queue_state_update dev qs).dirty = true ↔
      (qs.images.bo ≠ dev.images.bo ∨
       qs.images.alloc_count ≠ dev.images.alloc_count ∨
       qs.samplers.bo ≠ dev.samplers.bo ∨
       qs.samplers.alloc_count ≠ dev.samplers.alloc_count ∨
       qs.slm.bo ≠ dev.slm.bo ∨
       qs.slm.bytes_per_warp ≠ dev.slm.bytes_per_warp ∨
       qs.slm.bytes_per_tpc ≠ dev.slm.bytes_per_tpc) := by
  unfold nvk_queue_state_update nvk_descriptor_table_get_bo_ref
    nvk_slm_area_get_bo_ref
  by_cases hI : qs.images.bo ≠ dev.images.bo ∨
      qs.images.alloc_count ≠ dev.images.alloc_count <;>
  by_cases hS : qs.samplers.bo ≠ dev.samplers.bo ∨
      qs.samplers.alloc_count ≠ dev.samplers.alloc_count <;>
  by_cases hL : qs.slm.bo ≠ dev.slm.bo ∨
      qs.slm.bytes_per_warp ≠ dev.slm.bytes_per_warp ∨
      qs.slm.bytes_per_tpc ≠ dev.slm.bytes_per_tpc <;>
  cases hpa : dev.push_alloc <;>
  simp_all [updateDescriptorSlot, updateSlmSlot]

theorem fst_of_mem_destroyOpt (x : DestroySite × BO) (s : DestroySite)
    (o : Option BO) (hx : x ∈ destroyOpt s o) : x.1 = s := by
  cases o <;> simp [destroyOpt] at hx
  rw [hx]

theorem imageSlot_eq_mk_iff (s : ImageSlot) (x : Option BO) (n : Nat) :
    s = ⟨x, n⟩ ↔ s.bo = x ∧ s.alloc_count = n := by
  cases s; simp

theorem slmSlot_eq_mk_iff (s : SlmSlot) (x : Option BO) (w t : Nat) :
    s = ⟨x, w, t⟩ ↔
      s.bo = x ∧ s.bytes_per_warp = w ∧ s.bytes_per_tpc = t := by
  cases s; simp

theorem mem_destroyOpt (x : DestroySite × BO) (s : DestroySite)
    (o : Option BO) :
    x ∈ destroyOpt s o ↔ ∃ b, o = some b ∧ x = (s, b) := by
  cases o <;> simp [destroyOpt]

theorem nvk_queue_state_update_destroyed_eq (dev : nvk_device)
    (qs : nvk_queue_state) :
    (nvk_queue_state_update dev qs).destroyed =
      (if qs.images.bo ≠ dev.images.bo ∨
          qs.images.alloc_count ≠ dev.images.alloc_count then
        destroyOpt .imagesOld qs.images.bo
       else destroyOpt .imagesDup dev.images.bo) ++
      (if qs.samplers.bo ≠ dev.samplers.bo ∨
          qs.samplers.alloc_count ≠ dev.samplers.alloc_count then
        destroyOpt .samplersOld qs.samplers.bo
       else destroyOpt .samplersDup dev.samplers.bo) ++
      (if qs.slm.bo ≠ dev.slm.bo ∨
          qs.slm.bytes_per_warp ≠ dev.slm.bytes_per_warp ∨
          qs.slm.bytes_per_tpc ≠ dev.slm.bytes_per_tpc then
        destroyOpt .slmOld qs.slm.bo
       else destroyOpt .slmDup dev.slm.bo) ++
      (if (qs.images.bo ≠ dev.images.bo ∨
           qs.images.alloc_count ≠ dev.images.alloc_count ∨
           qs.samplers.bo ≠ dev.samplers.bo ∨
           qs.samplers.alloc_count ≠ dev.samplers.alloc_count ∨
           qs.slm.bo ≠ dev.slm.bo ∨
           qs.slm.bytes_per_warp ≠ dev.slm.bytes_per_warp ∨
           qs.slm.bytes_per_tpc ≠ dev.slm.bytes_per_tpc) ∧
          dev.push_alloc ≠ none then
        destroyOpt .pushOld qs.push.bo
       else []) := by
  unfold nvk_queue_state_update nvk_descriptor_table_get_bo_ref
    nvk_slm_area_get_bo_ref
  by_cases hI : qs.images.bo ≠ dev.images.bo ∨
      qs.images.alloc_count ≠ dev.images.alloc_count <;>
  by_cases hS : qs.samplers.bo ≠ dev.samplers.bo ∨
      qs.samplers.alloc_count ≠ dev.samplers.alloc_count <;>
  by_cases hL : qs.slm.bo ≠ dev.slm.bo ∨
      qs.slm.bytes_per_warp ≠ dev.slm.bytes_per_warp ∨
      qs.slm.bytes_per_tpc ≠ dev.slm.bytes_per_tpc <;>
  cases hpa : dev.push_alloc <;>
  simp_all [updateDescriptorSlot, updateSlmSlot]

theorem nvk_queue_state_update_clean (dev : nvk_device)
    (qs : nvk_queue_state)
    (h : ¬(qs.images.bo ≠ dev.images.bo ∨
           qs.images.alloc_count ≠ dev.images.alloc_count ∨
           qs.samplers.bo ≠ dev.samplers.bo ∨
           qs.samplers.alloc_count ≠ dev.samplers.alloc_count ∨
           qs.slm.bo ≠ dev.slm.bo ∨
           qs.slm.bytes_per_warp ≠ dev.slm.bytes_per_warp ∨
           qs.slm.bytes_per_tpc ≠ dev.slm.bytes_per_tpc)) :
    nvk_queue_state_update dev qs =
      ⟨.VK_SUCCESS, qs, false, 0,
       destroyOpt .imagesDup dev.images.bo ++
       destroyOpt .samplersDup dev.samplers.bo ++
       destroyOpt .slmDup dev.slm.bo, false⟩ := by
  push_neg at h
  obtain ⟨h1, h2, h3, h4, h5, h6, h7⟩ := h
  unfold nvk_queue_state_update nvk_descriptor_table_get_bo_ref
    nvk_slm_area_get_bo_ref
  simp [updateDescriptorSlot, updateSlmSlot, h1, h2, h3, h4, h5, h6, h7]

theorem nvk_queue_state_update_oom (dev : nvk_device) (qs : nvk_queue_state)
    (hc : qs.images.bo ≠ dev.images.bo ∨
          qs.images.alloc_count ≠ dev.images.alloc_count ∨
          qs.samplers.bo ≠ dev.samplers.bo ∨
          qs.samplers.alloc_count ≠ dev.samplers.alloc_count ∨
          qs.slm.bo ≠ dev.slm.bo ∨
          qs.slm.bytes_per_warp ≠ dev.slm.bytes_per_warp ∨
          qs.slm.bytes_per_tpc ≠ dev.slm.bytes_per_tpc)
    (hpa : dev.push_alloc = none) :
    (nvk_queue_state_update dev qs).res = .VK_ERROR_OUT_OF_DEVICE_MEMORY ∧
    (nvk_queue_state_update dev qs).qs =
      ⟨⟨dev.images.bo, dev.images.alloc_count⟩,
       ⟨dev.samplers.bo, dev.samplers.alloc_count⟩,
       ⟨dev.slm.bo, dev.slm.bytes_per_warp, dev.slm.bytes_per_tpc⟩,
       qs.push⟩ ∧
    (nvk_queue_state_update dev qs).dirty = true ∧
    (nvk_queue_state_update dev qs).allocs = 1 ∧
    (nvk_queue_state_update dev qs).assertFired = false := by
  unfold nvk_queue_state_update nvk_descriptor_table_get_bo_ref
    nvk_slm_area_get_bo_ref
  by_cases hI : qs.images.bo ≠ dev.images.bo ∨
      qs.images.alloc_count ≠ dev.images.alloc_count <;>
  by_cases hS : qs.samplers.bo ≠ dev.samplers.bo ∨
      qs.samplers.alloc_count ≠ dev.samplers.alloc_count <;>
  by_cases hL : qs.slm.bo ≠ dev.slm.bo ∨
      qs.slm.bytes_per_warp ≠ dev.slm.bytes_per_warp ∨
      qs.slm.bytes_per_tpc ≠ dev.slm.bytes_per_tpc <;>
  simp_all [updateDescriptorSlot, updateSlmSlot, imageSlot_eq_mk_iff,
    slmSlot_eq_mk_iff]

theorem nvk_queue_state_update_rebuild (dev : nvk_device)
    (qs : nvk_queue_state) (pa : BO × Nat)
    (hc : qs.images.bo ≠ dev.images.bo ∨
          qs.images.alloc_count ≠ dev.images.alloc_count ∨
          qs.samplers.bo ≠ dev.samplers.bo ∨
          qs.samplers.alloc_count ≠ dev.samplers.alloc_count ∨
          qs.slm.bo ≠ dev.slm.bo ∨
          qs.slm.bytes_per_warp ≠ dev.slm.bytes_per_warp ∨
          qs.slm.bytes_per_tpc ≠ dev.slm.bytes_per_tpc)
    (hpa : dev.push_alloc = some pa) :
    (nvk_queue_state_update dev qs).res = .VK_SUCCESS ∧
    (nvk_queue_state_update dev qs).dirty = true ∧
    (nvk_queue_state_update dev qs).allocs = 1 ∧
    (nvk_queue_state_update dev qs).qs.push =
      ⟨some pa.1, pa.2,
       (nvk_queue_encode
         ⟨⟨dev.images.bo, dev.images.alloc_count⟩,
          ⟨dev.samplers.bo, dev.samplers.alloc_count⟩,
          ⟨dev.slm.bo, dev.slm.bytes_per_warp, dev.slm.bytes_per_tpc⟩,
          qs.push⟩ dev.cls_compute).length⟩ ∧
    (nvk_queue_state_update dev qs).assertFired =
      rebuildAssertFired
        ⟨⟨dev.images.bo, dev.images.alloc_count⟩,
         ⟨dev.samplers.bo, dev.samplers.alloc_count⟩,
         ⟨dev.slm.bo, dev.slm.bytes_per_warp, dev.slm.bytes_per_tpc⟩,
         qs.push⟩ := by
  obtain ⟨⟨ib, ic⟩, ⟨sb, sc⟩, ⟨lb, lw, lt⟩, ps⟩ := qs
  unfold nvk_queue_state_update nvk_descriptor_table_get_bo_ref
    nvk_slm_area_get_bo_ref
  by_cases hI : ib ≠ dev.images.bo ∨ ic ≠ dev.images.alloc_count <;>
  by_cases hS : sb ≠ dev.samplers.bo ∨ sc ≠ dev.samplers.alloc_count <;>
  by_cases hL : lb ≠ dev.slm.bo ∨ lw ≠ dev.slm.bytes_per_warp ∨
      lt ≠ dev.slm.bytes_per_tpc <;>
  simp_all [updateDescriptorSlot, updateSlmSlot]

theorem nvk_queue_submit_of_lost (dev : nvk_device) (tok : Bool)
    (q : nvk_queue) (h : q.lost = true) :
    nvk_queue_submit dev tok q =
      ⟨.VK_ERROR_DEVICE_LOST, q, false, false, false, 0, []⟩ := by
  unfold nvk_queue_submit vk_queue_is_lost
  simp [h]

theorem and_7fff_eq_mod (n : Nat) : n &&& 0x7fff = n % 0x8000 := by
  have h := Nat.and_pow_two_sub_one_eq_mod n 15
  norm_num at h
  exact h

/-! Claim theorems. -/

/-- C1: once a queue's lost flag is set, every subsequent
`nvk_queue_submit` and `nvk_queue_submit_simple` call returns
VK_ERROR_DEVICE_LOST immediately, without running
`nvk_queue_state_update`, without any buffer allocation and without
invoking the submission transport; and no submit operation ever clears
the lost flag. -/
theorem nvk_queue_submit_lost_fails_fast (dev dev2 : nvk_device)
    (tok tok2 : Bool) (dw : List Nat) (q : nvk_queue) (h : q.lost = true) :
    (nvk_queue_submit dev tok q).res = .VK_ERROR_DEVICE_LOST ∧
    (nvk_queue_submit dev tok q).update_ran = false ∧
    (nvk_queue_submit dev tok q).allocs = 0 ∧
    (nvk_queue_submit dev tok q).transport_ran = false ∧
    (nvk_queue_submit dev tok q).queue = q ∧
    (nvk_queue_submit_simple dev2 tok2 dw q).res = .VK_ERROR_DEVICE_LOST ∧
    (nvk_queue_submit_simple dev2 tok2 dw q).update_ran = false ∧
    (nvk_queue_submit_simple dev2 tok2 dw q).allocs = 0 ∧
    (nvk_queue_submit_simple dev2 tok2 dw q).transport_ran = false ∧
    (nvk_queue_submit_simple dev2 tok2 dw q).queue = q ∧
    (∀ d t, (nvk_queue_submit d t q).queue.lost = true) ∧
    (∀ d t w, (nvk_queue_submit_simple d t w q).queue.lost = true) := by
  simp [nvk_queue_submit, nvk_queue_submit_simple, vk_queue_is_lost, h]

/-- Witness for C1 at a concrete lost queue. -/
theorem nvk_queue_submit_lost_fails_fast_witness :
    qLost.lost = true ∧
    (nvk_queue_submit devClean true qLost).res = .VK_ERROR_DEVICE_LOST ∧
    (nvk_queue_submit devClean true qLost).allocs = 0 ∧
    (nvk_queue_submit_simple devClean false [] qLost).transport_ran
      = false := by
  have h := nvk_queue_submit_lost_fails_fast devClean devClean true false []
    qLost (by decide)
  exact ⟨by decide, h.1, h.2.2.1, h.2.2.2.2.2.2.2.2.1⟩

/-- C2: `nvk_queue_state_update` marks the state dirty (and attempts
exactly one push-buffer allocation) if and only if at least one slot's
provider-returned BO handle or sizing metadata differs from the cache;
when nothing differs it returns VK_SUCCESS with zero allocations and the
state completely unchanged. -/
theorem nvk_queue_state_update_rebuilds_iff_changed (dev : nvk_device)
    (qs : nvk_queue_state) :
    ((nvk_queue_state_update dev qs).dirty = true ↔
      (qs.images.bo ≠ dev.images.bo ∨
       qs.images.alloc_count ≠ dev.images.alloc_count ∨
       qs.samplers.bo ≠ dev.samplers.bo ∨
       qs.samplers.alloc_count ≠ dev.samplers.alloc_count ∨
       qs.slm.bo ≠ dev.slm.bo ∨
       qs.slm.bytes_per_warp ≠ dev.slm.bytes_per_warp ∨
       qs.slm.bytes_per_tpc ≠ dev.slm.bytes_per_tpc)) ∧
    ((nvk_queue_state_update dev qs).dirty = true →
      (nvk_queue_state_update dev qs).allocs = 1) ∧
    ((nvk_queue_state_update dev qs).dirty = false →
      (nvk_queue_state_update dev qs).res = .VK_SUCCESS ∧
      (nvk_queue_state_update dev qs).allocs = 0 ∧
      (nvk_queue_state_update dev qs).qs = qs) := by
  refine ⟨nvk_queue_state_update_dirty_eq dev qs, ?_, ?_⟩
  · intro hd
    have hc := (nvk_queue_state_update_dirty_eq dev qs).mp hd
    cases hpa : dev.push_alloc with
    | none => exact (nvk_queue_state_update_oom dev qs hc hpa).2.2.2.1
    | some pa => exact (nvk_queue_state_update_rebuild dev qs pa hc hpa).2.2.1
  · intro hd
    by_cases hc : (qs.images.bo ≠ dev.images.bo ∨
       qs.images.alloc_count ≠ dev.images.alloc_count ∨
       qs.samplers.bo ≠ dev.samplers.bo ∨
       qs.samplers.alloc_count ≠ dev.samplers.alloc_count ∨
       qs.slm.bo ≠ dev.slm.bo ∨
       qs.slm.bytes_per_warp ≠ dev.slm.bytes_per_warp ∨
       qs.slm.bytes_per_tpc ≠ dev.slm.bytes_per_tpc)
    · rw [(nvk_queue_state_update_dirty_eq dev qs).mpr hc] at hd
      exact absurd hd (by simp)
    · rw [nvk_queue_state_update_clean dev qs hc]
      exact ⟨rfl, rfl, rfl⟩

/-- Witness for C2: a grown provider makes the state dirty; matching
providers leave it clean, with no allocation and the state unchanged. -/
theorem nvk_queue_state_update_rebuilds_iff_changed_witness :
    (nvk_queue_state_update devGrow qs0).dirty = true ∧
    ((nvk_queue_state_update devSame qsA).res = .VK_SUCCESS ∧
     (nvk_queue_state_update devSame qsA).allocs = 0 ∧
     (nvk_queue_state_update devSame qsA).qs = qsA) :=
  ⟨(nvk_queue_state_update_rebuilds_iff_changed devGrow qs0).1.mpr
      (by decide),
   (nvk_queue_state_update_rebuilds_iff_changed devSame qsA).2.2
      (by decide)⟩

/-- C3: running `nvk_queue_state_update` twice with the providers
returning the same references and metadata in between yields a clean
second call: not dirty, zero allocations and VK_SUCCESS. -/
theorem nvk_queue_state_update_idempotent (dev dev2 : nvk_device)
    (qs : nvk_queue_state)
    (hI : dev2.images = dev.images) (hS : dev2.samplers = dev.samplers)
    (hL : dev2.slm = dev.slm) :
    (nvk_queue_state_update dev2
      (nvk_queue_state_update dev qs).qs).dirty = false ∧
    (nvk_queue_state_update dev2
      (nvk_queue_state_update dev qs).qs).allocs = 0 ∧
    (nvk_queue_state_update dev2
      (nvk_queue_state_update dev qs).qs).res = .VK_SUCCESS := by
  obtain ⟨e1, e2, e3⟩ := nvk_queue_state_update_slots dev qs
  have hcond : ¬((nvk_queue_state_update dev qs).qs.images.bo ≠
        dev2.images.bo ∨
      (nvk_queue_state_update dev qs).qs.images.alloc_count ≠
        dev2.images.alloc_count ∨
      (nvk_queue_state_update dev qs).qs.samplers.bo ≠ dev2.samplers.bo ∨
      (nvk_queue_state_update dev qs).qs.samplers.alloc_count ≠
        dev2.samplers.alloc_count ∨
      (nvk_queue_state_update dev qs).qs.slm.bo ≠ dev2.slm.bo ∨
      (nvk_queue_state_update dev qs).qs.slm.bytes_per_warp ≠
        dev2.slm.bytes_per_warp ∨
      (nvk_queue_state_update dev qs).qs.slm.bytes_per_tpc ≠
        dev2.slm.bytes_per_tpc) := by
    simp [e1, e2, e3, hI, hS, hL]
  rw [nvk_queue_state_update_clean dev2 _ hcond]
  exact ⟨rfl, rfl, rfl⟩

/-- Witness for C3 after a growth event at a concrete input. -/
theorem nvk_queue_state_update_idempotent_witness :
    devGrow.images = devGrow.images ∧
    (nvk_queue_state_update devGrow
      (nvk_queue_state_update devGrow qs0).qs).dirty = false ∧
    (nvk_queue_state_update devGrow
      (nvk_queue_state_update devGrow qs0).qs).allocs = 0 :=
  ⟨rfl,
   (nvk_queue_state_update_idempotent devGrow devGrow qs0 rfl rfl rfl).1,
   (nvk_queue_state_update_idempotent devGrow devGrow qs0 rfl rfl rfl).2.1⟩

/-- C4 counterexample: the transport fails on a non-lost queue with both
debug flags clear, and the diagnostic dump is NOT invoked — failure alone
does not trigger the dump (the sync flag must also be set). -/
theorem nvk_queue_submit_dump_counterexample :
    (nvk_queue_submit devSame false qA).transport_ran = true ∧
    (nvk_queue_submit devSame false qA).res ≠ .VK_SUCCESS ∧
    devSame.debug_push_dump = false ∧
    (nvk_queue_submit devSame false qA).dumped = false := by
  decide

/-- C4 (amended): whenever the transport is reached, the diagnostic dump
is emitted exactly when (the sync debug flag is set and the transport
reported failure) or the dump debug flag is set; in particular the dump
flag forces a dump even on success, for both submit and submit-simple. -/
theorem nvk_queue_submit_dump_iff (dev : nvk_device) (tok : Bool)
    (dw : List Nat) (q : nvk_queue) :
    ((nvk_queue_submit dev tok q).transport_ran = true →
      ((nvk_queue_submit dev tok q).dumped = true ↔
        ((dev.debug_push_sync = true ∧ tok = false) ∨
         dev.debug_push_dump = true))) ∧
    ((nvk_queue_submit_simple dev tok dw q).transport_ran = true →
      ((nvk_queue_submit_simple dev tok dw q).dumped = true ↔
        ((dev.debug_push_sync = true ∧ tok = false) ∨
         dev.debug_push_dump = true))) := by
  unfold nvk_queue_submit nvk_queue_submit_simple vk_queue_is_lost
    vk_queue_set_lost
  cases hl : q.lost <;>
  cases hpa : dev.push_alloc <;>
  cases tok <;>
  cases hsy : dev.debug_push_sync <;>
  cases hdu : dev.debug_push_dump <;>
  simp_all <;>
  split <;>
  simp_all

/-- Witness for the amended C4: dump flag set and transport succeeding
still dumps; sync flag set and transport failing dumps. -/
theorem nvk_queue_submit_dump_iff_witness :
    ((nvk_queue_submit devDump true qA).dumped = true ∧
     (nvk_queue_submit devDump true qA).res = .VK_SUCCESS) ∧
    (nvk_queue_submit devSync false qA).dumped = true := by
  refine ⟨⟨?_, by decide⟩, ?_⟩
  · exact ((nvk_queue_submit_dump_iff devDump true [] qA).1 (by decide)).mpr
      (Or.inr (by decide))
  · exact ((nvk_queue_submit_dump_iff devSync false [] qA).1 (by decide)).mpr
      (Or.inl (by decide))

/-- C5 counterexample: when the rebuild's push-buffer allocation fails,
`nvk_queue_submit` reports VK_ERROR_DEVICE_LOST (the return value of
`vk_queue_set_lost`, which receives no error code), not an
OutOfMemory-class result; the OOM code is only the state update's own
return. -/
theorem nvk_queue_submit_oom_counterexample :
    (nvk_queue_state_update devOOM qs0).res =
      .VK_ERROR_OUT_OF_DEVICE_MEMORY ∧
    (nvk_queue_submit devOOM true q0).res = .VK_ERROR_DEVICE_LOST ∧
    (nvk_queue_submit devOOM true q0).res ≠
      .VK_ERROR_OUT_OF_DEVICE_MEMORY := by
  decide

/-- C5 (amended): if the rebuild's push-buffer allocation fails, the
state update returns VK_ERROR_OUT_OF_DEVICE_MEMORY, `nvk_queue_submit`
latches the queue lost and returns VK_ERROR_DEVICE_LOST without reaching
the transport, and a second submit on the resulting queue returns
VK_ERROR_DEVICE_LOST without running the update or attempting any
allocation. -/
theorem nvk_queue_submit_rebuild_oom_loses_queue (dev dev2 : nvk_device)
    (tok tok2 : Bool) (q : nvk_queue) (hq : q.lost = false)
    (hu : (nvk_queue_state_update dev q.state).res =
      .VK_ERROR_OUT_OF_DEVICE_MEMORY) :
    (nvk_queue_submit dev tok q).res = .VK_ERROR_DEVICE_LOST ∧
    (nvk_queue_submit dev tok q).queue.lost = true ∧
    (nvk_queue_submit dev tok q).transport_ran = false ∧
    (nvk_queue_submit dev2 tok2
      (nvk_queue_submit dev tok q).queue).res = .VK_ERROR_DEVICE_LOST ∧
    (nvk_queue_submit dev2 tok2
      (nvk_queue_submit dev tok q).queue).allocs = 0 ∧
    (nvk_queue_submit dev2 tok2
      (nvk_queue_submit dev tok q).queue).update_ran = false := by
  have h1 : (nvk_queue_submit dev tok q).res = .VK_ERROR_DEVICE_LOST ∧
      (nvk_queue_submit dev tok q).queue.lost = true ∧
      (nvk_queue_submit dev tok q).transport_ran = false := by
    unfold nvk_queue_submit vk_queue_is_lost vk_queue_set_lost
    simp [hq, hu]
  rw [nvk_queue_submit_of_lost dev2 tok2 _ h1.2.1]
  exact ⟨h1.1, h1.2.1, h1.2.2, rfl, rfl, rfl⟩

/-- Witness for the amended C5 at a concrete out-of-memory device. -/
theorem nvk_queue_submit_rebuild_oom_loses_queue_witness :
    q0.lost = false ∧
    (nvk_queue_submit devOOM true q0).queue.lost = true ∧
    (nvk_queue_submit devClean true
      (nvk_queue_submit devOOM true q0).queue).res =
        .VK_ERROR_DEVICE_LOST ∧
    (nvk_queue_submit devClean true
      (nvk_queue_submit devOOM true q0).queue).allocs = 0 := by
  have h := nvk_queue_submit_rebuild_oom_loses_queue devOOM devClean true
    true q0 (by decide) (by decide)
  exact ⟨by decide, h.2.1, h.2.2.2.1, h.2.2.2.2.1⟩

/-- C6: in every `nvk_queue_state_update` call, a slot whose
provider-returned reference equals the cached value (same handle and
metadata) has its fresh duplicate reference destroyed before return, so a
clean refresh leaks nothing; and a slot that differs has its previously
cached reference (when present) destroyed before the new one is
stored. -/
theorem nvk_queue_state_update_releases_refs (dev : nvk_device)
    (qs : nvk_queue_state) :
    ((qs.images.bo = dev.images.bo ∧
        qs.images.alloc_count = dev.images.alloc_count) →
      ∀ b, dev.images.bo = some b →
        (DestroySite.imagesDup, b) ∈
          (nvk_queue_state_update dev qs).destroyed) ∧
    ((qs.images.bo ≠ dev.images.bo ∨
        qs.images.alloc_count ≠ dev.images.alloc_count) →
      ∀ b, qs.images.bo = some b →
        (DestroySite.imagesOld, b) ∈
          (nvk_queue_state_update dev qs).destroyed) ∧
    ((qs.samplers.bo = dev.samplers.bo ∧
        qs.samplers.alloc_count = dev.samplers.alloc_count) →
      ∀ b, dev.samplers.bo = some b →
        (DestroySite.samplersDup, b) ∈
          (nvk_queue_state_update dev qs).destroyed) ∧
    ((qs.samplers.bo ≠ dev.samplers.bo ∨
        qs.samplers.alloc_count ≠ dev.samplers.alloc_count) →
      ∀ b, qs.samplers.bo = some b →
        (DestroySite.samplersOld, b) ∈
          (nvk_queue_state_update dev qs).destroyed) ∧
    ((qs.slm.bo = dev.slm.bo ∧
        qs.slm.bytes_per_warp = dev.slm.bytes_per_warp ∧
        qs.slm.bytes_per_tpc = dev.slm.bytes_per_tpc) →
      ∀ b, dev.slm.bo = some b →
        (DestroySite.slmDup, b) ∈
          (nvk_queue_state_update dev qs).destroyed) ∧
    ((qs.slm.bo ≠ dev.slm.bo ∨
        qs.slm.bytes_per_warp ≠ dev.slm.bytes_per_warp ∨
        qs.slm.bytes_per_tpc ≠ dev.slm.bytes_per_tpc) →
      ∀ b, qs.slm.bo = some b →
        (DestroySite.slmOld, b) ∈
          (nvk_queue_state_update dev qs).destroyed) := by
  rw [nvk_queue_state_update_destroyed_eq]
  refine ⟨?_, ?_, ?_, ?_, ?_, ?_⟩ <;>
    intro h b hb <;>
    simp only [List.mem_append, mem_destroyOpt]
  · have hnc : ¬(qs.images.bo ≠ dev.images.bo ∨
        qs.images.alloc_count ≠ dev.images.alloc_count) := by
      simp [h.1, h.2]
    rw [if_neg hnc]
    simp [mem_destroyOpt, hb]
  · rw [if_pos h]
    simp [mem_destroyOpt, hb]
  · have hnc : ¬(qs.samplers.bo ≠ dev.samplers.bo ∨
        qs.samplers.alloc_count ≠ dev.samplers.alloc_count) := by
      simp [h.1, h.2]
    rw [if_neg hnc]
    simp [mem_destroyOpt, hb]
  · rw [if_pos h]
    simp [mem_destroyOpt, hb]
  · have hnc : ¬(qs.slm.bo ≠ dev.slm.bo ∨
        qs.slm.bytes_per_warp ≠ dev.slm.bytes_per_warp ∨
        qs.slm.bytes_per_tpc ≠ dev.slm.bytes_per_tpc) := by
      simp [h.1, h.2.1, h.2.2]
    rw [if_neg hnc]
    simp [mem_destroyOpt, hb]
  · rw [if_pos h]
    simp [mem_destroyOpt, hb]

/-- Witness for C6: with grown images but unchanged scratch, the old
images reference and the duplicate scratch reference are both
destroyed. -/
theorem nvk_queue_state_update_releases_refs_witness :
    (DestroySite.imagesOld, bo1) ∈
      (nvk_queue_state_update devGrow qsA).destroyed ∧
    (DestroySite.slmDup, boSlm) ∈
      (nvk_queue_state_update devGrow qsA).destroyed :=
  ⟨(nvk_queue_state_update_releases_refs devGrow qsA).2.1 (by decide) bo1
      (by decide),
   (nvk_queue_state_update_releases_refs devGrow qsA).2.2.2.2.1 (by decide)
      boSlm (by decide)⟩

/-- C7: the rebuild's scratch encoding asserts that the per-TPC scratch
size is 0x8000-aligned: on the rebuild path the assertion fires exactly
for a bound scratch BO with a misaligned size, the function's result code
never reflects the violation (it is a programming-error-class abort, not
a recoverable error), and an aligned size never fires the assertion. -/
theorem nvk_queue_state_update_slm_alignment (dev : nvk_device)
    (qs : nvk_queue_state) :
    ((nvk_queue_state_update dev qs).assertFired = true ↔
      ((nvk_queue_state_update dev qs).dirty = true ∧
       dev.push_alloc ≠ none ∧ dev.slm.bo ≠ none ∧
       dev.slm.bytes_per_tpc % 0x8000 ≠ 0)) ∧
    (dev.slm.bytes_per_tpc % 0x8000 = 0 →
      (nvk_queue_state_update dev qs).assertFired = false) ∧
    ((nvk_queue_state_update dev qs).res = .VK_SUCCESS ∨
     (nvk_queue_state_update dev qs).res =
       .VK_ERROR_OUT_OF_DEVICE_MEMORY) := by
  by_cases hc : (qs.images.bo ≠ dev.images.bo ∨
      qs.images.alloc_count ≠ dev.images.alloc_count ∨
      qs.samplers.bo ≠ dev.samplers.bo ∨
      qs.samplers.alloc_count ≠ dev.samplers.alloc_count ∨
      qs.slm.bo ≠ dev.slm.bo ∨
      qs.slm.bytes_per_warp ≠ dev.slm.bytes_per_warp ∨
      qs.slm.bytes_per_tpc ≠ dev.slm.bytes_per_tpc)
  · cases hpa : dev.push_alloc with
    | none =>
      obtain ⟨hr, _, hd, _, ha⟩ := nvk_queue_state_update_oom dev qs hc hpa
      rw [ha, hr]
      simp [hpa]
    | some pa =>
      obtain ⟨hr, hd, _, _, ha⟩ :=
        nvk_queue_state_update_rebuild dev qs pa hc hpa
      rw [ha, hr, hd]
      unfold rebuildAssertFired
      cases hso : dev.slm.bo with
      | none => simp [hpa]
      | some b =>
        simp only [bne_iff_ne, ne_eq, and_7fff_eq_mod]
        simp [hpa, hso, and_7fff_eq_mod]
  · rw [nvk_queue_state_update_clean dev qs hc]
    simp

/-- Witness for C7: a misaligned per-TPC size fires the assertion on a
rebuild; the aligned sample never does. -/
theorem nvk_queue_state_update_slm_alignment_witness :
    (nvk_queue_state_update devBadAlign qs0).assertFired = true ∧
    (nvk_queue_state_update devGrow qs0).assertFired = false :=
  ⟨(nvk_queue_state_update_slm_alignment devBadAlign qs0).1.mpr
      (by refine ⟨?_, by decide, by decide, by decide⟩
          exact (nvk_queue_state_update_dirty_eq devBadAlign qs0).mpr
            (by decide)),
   (nvk_queue_state_update_slm_alignment devGrow qs0).2.1 (by decide)⟩

/-- C8: every rebuild's stream ends with the memory-window commands — a
block depending only on the hardware class, hence emitted regardless of
which slots are present — followed by the final 3D local-memory-window
immediate, and the scratch-memory allocation commands all sit before that
window block. -/
theorem nvk_queue_encode_windows_unconditional (qs : nvk_queue_state)
    (cls : Nat) :
    ∃ pre,
      nvk_queue_encode qs cls =
        pre ++ nvk_queue_encode_windows cls ++
          [Word.immd .SET_SHADER_LOCAL_MEMORY_WINDOW_3d 0xff000000] ∧
      nvk_queue_encode_slm qs.slm cls <:+ pre ∧
      nvk_queue_encode_windows cls ≠ [] := by
  refine ⟨nvk_queue_encode_images qs.images ++
    nvk_queue_encode_samplers qs.samplers ++
    nvk_queue_encode_slm qs.slm cls, ?_, ?_, ?_⟩
  · simp [nvk_queue_encode, List.append_assoc]
  · exact ⟨_, rfl⟩
  · unfold nvk_queue_encode_windows
    split <;> simp

/-- C9: for every queue state and hardware class, the rebuild encodes at
most PUSH_CAPACITY (256) dwords, the capacity of the push buffer it
allocates. -/
theorem nvk_queue_encode_length_le_capacity (qs : nvk_queue_state)
    (cls : Nat) :
    (nvk_queue_encode qs cls).length ≤ PUSH_CAPACITY := by
  obtain ⟨⟨ib, ic⟩, ⟨sb, sc⟩, ⟨lb, lw, lt⟩, ps⟩ := qs
  by_cases hv : cls < VOLTA_COMPUTE_A
  · have hv2 : ¬ VOLTA_COMPUTE_A ≤ cls := Nat.not_le.mpr hv
    cases ib <;> cases sb <;> cases lb <;>
    simp [nvk_queue_encode, nvk_queue_encode_images,
      nvk_queue_encode_samplers, nvk_queue_encode_slm,
      nvk_queue_encode_windows, PUSH_CAPACITY, hv, hv2]
  · have hv2 : VOLTA_COMPUTE_A ≤ cls := Nat.not_lt.mp hv
    cases ib <;> cases sb <;> cases lb <;>
    simp [nvk_queue_encode, nvk_queue_encode_images,
      nvk_queue_encode_samplers, nvk_queue_encode_slm,
      nvk_queue_encode_windows, PUSH_CAPACITY, hv, hv2]

/-- C10: when the push-buffer allocation inside the update fails after
the dirty check, the push slot (bo, mapping, dw_count) is left untouched
while the three resource slots already hold the newly queried values, the
state is dirty (so the surviving push buffer no longer encodes the
current slot values), and the old push buffer is never destroyed on this
path — it is only destroyed on a successful rebuild. -/
theorem nvk_queue_state_update_oom_frame (dev : nvk_device)
    (qs : nvk_queue_state)
    (h : (nvk_queue_state_update dev qs).res =
      .VK_ERROR_OUT_OF_DEVICE_MEMORY) :
    (nvk_queue_state_update dev qs).qs.push = qs.push ∧
    (nvk_queue_state_update dev qs).qs.images =
      ⟨dev.images.bo, dev.images.alloc_count⟩ ∧
    (nvk_queue_state_update dev qs).qs.samplers =
      ⟨dev.samplers.bo, dev.samplers.alloc_count⟩ ∧
    (nvk_queue_state_update dev qs).qs.slm =
      ⟨dev.slm.bo, dev.slm.bytes_per_warp, dev.slm.bytes_per_tpc⟩ ∧
    (nvk_queue_state_update dev qs).dirty = true ∧
    (∀ b, (DestroySite.pushOld, b) ∉
      (nvk_queue_state_update dev qs).destroyed) ∧
    (∀ d k b, (DestroySite.pushOld, b) ∈
        (nvk_queue_state_update d k).destroyed →
      (nvk_queue_state_update d k).res = .VK_SUCCESS) := by
  have hgen : ∀ (d : nvk_device) (k : nvk_queue_state) (b : BO),
      (DestroySite.pushOld, b) ∈ (nvk_queue_state_update d k).destroyed →
      (nvk_queue_state_update d k).res = .VK_SUCCESS := by
    intro d k b hmem
    rw [nvk_queue_state_update_destroyed_eq] at hmem
    simp only [List.mem_append, mem_destroyOpt] at hmem
    rcases hmem with ((hm | hm) | hm) | hm
    · split at hm <;>
        (have hf := fst_of_mem_destroyOpt _ _ _ hm; simp at hf)
    · split at hm <;>
        (have hf := fst_of_mem_destroyOpt _ _ _ hm; simp at hf)
    · split at hm <;>
        (have hf := fst_of_mem_destroyOpt _ _ _ hm; simp at hf)
    · split at hm
      next hcond =>
        obtain ⟨hcd, hpa⟩ := hcond
        cases hpa2 : d.push_alloc with
        | none => exact absurd hpa2 hpa
        | some pa =>
          exact (nvk_queue_state_update_rebuild d k pa hcd hpa2).1
      next => simp at hm
  by_cases hc : (qs.images.bo ≠ dev.images.bo ∨
      qs.images.alloc_count ≠ dev.images.alloc_count ∨
      qs.samplers.bo ≠ dev.samplers.bo ∨
      qs.samplers.alloc_count ≠ dev.samplers.alloc_count ∨
      qs.slm.bo ≠ dev.slm.bo ∨
      qs.slm.bytes_per_warp ≠ dev.slm.bytes_per_warp ∨
      qs.slm.bytes_per_tpc ≠ dev.slm.bytes_per_tpc)
  · cases hpa : dev.push_alloc with
    | none =>
      obtain ⟨hr, hqs, hd, _, _⟩ := nvk_queue_state_update_oom dev qs hc hpa
      refine ⟨by rw [hqs], by rw [hqs], by rw [hqs], by rw [hqs], hd,
        ?_, fun d k b hm => hgen d k b hm⟩
      intro b hmem
      have := hgen dev qs b hmem
      rw [this] at h
      exact absurd h (by simp)
    | some pa =>
      have := (nvk_queue_state_update_rebuild dev qs pa hc hpa).1
      rw [this] at h
      exact absurd h (by simp)
  · rw [nvk_queue_state_update_clean dev qs hc] at h
    exact absurd h (by simp)

/-- Witness for C10 at a concrete failing allocation with a live old
push buffer. -/
theorem nvk_queue_state_update_oom_frame_witness :
    (nvk_queue_state_update devOOM qsA).res =
      .VK_ERROR_OUT_OF_DEVICE_MEMORY ∧
    (nvk_queue_state_update devOOM qsA).qs.push = qsA.push ∧
    (DestroySite.pushOld, boPush) ∉
      (nvk_queue_state_update devOOM qsA).destroyed :=
  ⟨by decide,
   (nvk_queue_state_update_oom_frame devOOM qsA (by decide)).1,
   (nvk_queue_state_update_oom_frame devOOM qsA
      (by decide)).2.2.2.2.2.1 boPush⟩

end Nvk
